import Mathlib

/-!
Verification development for the `arc_core` continual-learning package.

Part 1 translates the public interface stubs found under `src/arc_core/`
(`config.py`, `train.py`, `memory.py`, `safety.py`): every public
constructor and factory unconditionally raises `ImportError`.

Part 2 models the learning/memory/safety core itself.  That
implementation is not part of this repository (it ships separately via
PyPI); only its interface stubs and callers are present, so the core is
modelled from the specification (each such definition says so in its doc
comment).
-/

namespace ARC

/-! ### Part 1: the public API stubs, translated from `src/arc_core/` -/

/-- Errors raised by the public interface modules of `src/arc_core/`. -/
inductive PublicAPIError where
  | importError (msg : String)
deriving DecidableEq, Repr

/-- The message raised by every stub constructor in `src/arc_core/`
(`config.py` lines 17-22, `train.py` lines 24-28, `memory.py` lines
24-28, `safety.py` lines 24-28). -/
def arcImportMessage : String :=
  "ARC Core implementation not found. Please install the package:\npip install metisos-arc-core"

/-- Placeholder for an initialized `ARCConfig` instance (`config.py`). -/
structure ARCConfig where
deriving DecidableEq, Repr

/-- Placeholder for an initialized `ARCTrainer` instance (`train.py`). -/
structure ARCTrainer where
deriving DecidableEq, Repr

/-- Placeholder for an initialized `MemorySystem` instance (`memory.py`). -/
structure MemorySystem where
deriving DecidableEq, Repr

/-- Placeholder for an initialized `SafetySystem` instance (`safety.py`). -/
structure SafetySystem where
deriving DecidableEq, Repr

/-- `ARCConfig.__init__` (`src/arc_core/config.py` lines 17-22): raises
`ImportError` unconditionally, so construction never yields an instance. -/
def ARCConfig.init : Except PublicAPIError ARCConfig :=
  .error (.importError arcImportMessage)

/-- `create_default_config` (`src/arc_core/config.py` lines 24-34): raises
`ImportError` unconditionally. -/
def create_default_config : Except PublicAPIError ARCConfig :=
  .error (.importError arcImportMessage)

/-- `ARCTrainer.__init__` (`src/arc_core/train.py` lines 24-28): raises
`ImportError` unconditionally, for every argument value (Python imposes no
type on `config`, hence the universe-polymorphic argument). -/
def ARCTrainer.init {α : Type u} (config : α) : Except PublicAPIError ARCTrainer :=
  .error (.importError arcImportMessage)

/-- `MemorySystem.__init__` (`src/arc_core/memory.py` lines 24-28): raises
`ImportError` unconditionally, for every argument value. -/
def MemorySystem.init {α : Type u} (config : α) : Except PublicAPIError MemorySystem :=
  .error (.importError arcImportMessage)

/-- `SafetySystem.__init__` (`src/arc_core/safety.py` lines 24-28): raises
`ImportError` unconditionally, for every argument value. -/
def SafetySystem.init {α : Type u} (config : α) : Except PublicAPIError SafetySystem :=
  .error (.importError arcImportMessage)

/-! ### Part 2: the learning/memory/safety core, modelled from the spec -/

/-- Modelled from the spec: the configuration record of section 6
(the concrete configuration class is not under `src/`); `learning_rate`,
`biological_learning_rate`, `working_memory_capacity`,
`episodic_retention_cap`, `consolidation_interval`, plus the
consolidation similarity threshold and minimum cluster support of
section 4.2 and the safety severity threshold of section 4.3. -/
structure ARCConfigData where
  learning_rate : ℚ
  biological_learning_rate : ℚ
  working_memory_capacity : ℕ
  episodic_retention_cap : ℕ
  consolidation_interval : ℕ
  similarity_threshold : ℕ
  min_cluster_size : ℕ
  safety_threshold : ℕ
deriving DecidableEq, Repr

/-- Modelled from the spec: the `Interaction` record of section 3
(the concrete record type is not under `src/`). -/
structure Interaction where
  input : String
  output : String
  timestamp : ℕ
deriving DecidableEq, Repr

/-- Modelled from the spec: a Semantic Memory `Concept` record of
section 3 (the concrete record type is not under `src/`). -/
structure Concept where
  pattern : String
  support_count : ℕ
  last_reinforced : ℕ
deriving DecidableEq, Repr

/-- Modelled from the spec: the Memory Store state of sections 3-4.2 —
Working (bounded, insertion ordered, oldest first), Episodic (append-only
log) and Semantic (keyed concept records) tiers, plus a logical clock.
The concrete store is not under `src/`. -/
structure MemState where
  working : List Interaction
  episodic : List Interaction
  semantic : List (String × Concept)
  clock : ℕ
deriving DecidableEq, Repr

/-- Modelled from the spec: `AdapterState` of section 3 (the concrete
state record is not under `src/`).  Weights are modelled as a list of
exact rationals. -/
structure AdapterState where
  weights : List ℚ
  total_updates : ℕ
  learning_rate : ℚ
  cumulative_loss : ℚ
  version : ℕ
deriving DecidableEq, Repr

/-- Modelled from the spec: the joint state seen by the Adapter Update
Engine — the Generative Model base parameters (read-only for the core)
together with the `AdapterState` it owns (sections 2-3). -/
structure CoreState where
  base_weights : List ℚ
  adapter : AdapterState
deriving DecidableEq, Repr

/-- The base-parameter checksum used by the testable property of
section 8: the sum of the parameter list. -/
def checksum (ws : List ℚ) : ℚ := ws.sum

/-- Modelled from the spec: `add_interaction` of section 4.2 (the
implementation behind the `MemorySystem.add_interaction` stub in
`src/arc_core/memory.py` lines 30-32 is not under `src/`).  The record is
appended to Working Memory; on overflow beyond the configured capacity
the oldest entries are evicted FIFO and migrated to Episodic Memory. -/
def add_interaction (cfg : ARCConfigData) (rec : Interaction) (s : MemState) : MemState :=
  let K := cfg.working_memory_capacity
  let w := s.working ++ [rec]
  if K < w.length then
    { s with
        working := w.drop (w.length - K)
        episodic := s.episodic ++ w.take (w.length - K)
        clock := s.clock + 1 }
  else
    { s with working := w, clock := s.clock + 1 }

/-- A whole sequence of `add_interaction` calls, oldest first. -/
def addAll (cfg : ARCConfigData) (recs : List Interaction) (s : MemState) : MemState :=
  recs.foldl (fun st r => add_interaction cfg r st) s

/-- Splits a character list at spaces, accumulating the current word in
reverse. -/
def splitWordsAux : List Char → List Char → List (List Char)
  | [], acc => [acc.reverse]
  | c :: cs, acc =>
    if c = ' ' then acc.reverse :: splitWordsAux cs []
    else splitWordsAux cs (c :: acc)

/-- Whitespace tokenization used by the lexical relevance and similarity
scores of section 4.2: the distinct non-empty space-separated words. -/
def tokenize (s : String) : List String :=
  (((splitWordsAux s.data []).filter (fun cs => !cs.isEmpty)).map
    (fun cs => String.mk cs)).dedup

/-- Number of query tokens that occur among the tokens of `t`. -/
def overlapCount (q t : String) : ℕ :=
  ((tokenize q).filter (fun w => (tokenize t).contains w)).length

/-- Modelled from the spec: the relevance score of section 4.2 —
recency-weighted lexical overlap of the query with a stored record. -/
def relevanceScore (q : String) (r : Interaction) : ℕ :=
  overlapCount q r.input + overlapCount q r.output + r.timestamp

/-- The retrieval scopes accepted by `get_relevant_memories`
(section 4.2). -/
inductive MemScope where
  | workingScope
  | episodicScope
  | semanticScope
  | allScope
deriving DecidableEq, Repr

/-- A Semantic Concept turned into a retrievable record: key as input,
pattern as output, last reinforcement time as timestamp. -/
def conceptRecord (kc : String × Concept) : Interaction :=
  { input := kc.1, output := kc.2.pattern, timestamp := kc.2.last_reinforced }

/-- The candidate pool for a retrieval scope. -/
def scopePool (scope : MemScope) (s : MemState) : List Interaction :=
  match scope with
  | .workingScope => s.working
  | .episodicScope => s.episodic
  | .semanticScope => s.semantic.map conceptRecord
  | .allScope => s.working ++ s.episodic ++ s.semantic.map conceptRecord

/-- Descending comparison on (relevance score, recency): higher score
first, ties broken by the more recent timestamp (section 4.2). -/
def rankedBefore (q : String) (a b : Interaction) : Bool :=
  decide (relevanceScore q b < relevanceScore q a) ||
    (decide (relevanceScore q a = relevanceScore q b) && decide (b.timestamp ≤ a.timestamp))

/-- Modelled from the spec: `get_relevant_memories` of section 4.2 (the
implementation behind the `MemorySystem.get_relevant_memories` stub in
`src/arc_core/memory.py` lines 34-36 is not under `src/`).  It is a read:
the returned state is the store it was called on, and the result is the
scope pool ranked by relevance with recency tie-breaks. -/
def get_relevant_memories (q : String) (scope : MemScope) (s : MemState) :
    List Interaction × MemState :=
  ((scopePool scope s).mergeSort (rankedBefore q), s)

/-- The text of a record used for consolidation similarity. -/
def interText (r : Interaction) : String := r.input ++ " " ++ r.output

/-- Modelled from the spec: the textual similarity measure of section
4.2 — the number of distinct tokens shared by the two records. -/
def similarity (a b : Interaction) : ℕ :=
  ((tokenize (interText a)).filter (fun w => (tokenize (interText b)).contains w)).length

/-- Greedy single-link clustering with explicit fuel: the head seeds a
cluster of every remaining entry whose similarity to it meets the
threshold, and clustering recurses on the rest. -/
def clusterByAux (θ : ℕ) : ℕ → List Interaction → List (List Interaction)
  | 0, _ => []
  | _, [] => []
  | fuel + 1, e :: rest =>
    let near := rest.filter (fun x => decide (θ ≤ similarity e x))
    let far := rest.filter (fun x => !decide (θ ≤ similarity e x))
    (e :: near) :: clusterByAux θ fuel far

/-- Modelled from the spec: the clustering pass of `consolidate`
(section 4.2) — entries are grouped by textual similarity above the
threshold. -/
def clusterBy (θ : ℕ) (l : List Interaction) : List (List Interaction) :=
  clusterByAux θ l.length l

/-- The concept key of a cluster: the text of its seed entry. -/
def clusterKey (c : List Interaction) : String :=
  match c with
  | [] => ""
  | e :: _ => interText e

/-- Modelled from the spec: `consolidate` of section 4.2 (the
implementation behind the `MemorySystem.consolidate_memories` stub in
`src/arc_core/memory.py` lines 38-40 is not under `src/`).  Episodic
entries are clustered by similarity above the configured threshold; each
cluster with support at least the minimum count creates a Semantic
Concept (or reinforces an existing one with the same key, incrementing
its `support_count`); clustering only reads Episodic, it never deletes
from it. -/
def consolidate_memories (cfg : ARCConfigData) (s : MemState) : MemState :=
  let clusters := clusterBy cfg.similarity_threshold s.episodic
  let promoted := clusters.filter (fun c => decide (cfg.min_cluster_size ≤ c.length))
  let reinforced := s.semantic.map (fun kc =>
    match promoted.find? (fun c => clusterKey c == kc.1) with
    | some c =>
      (kc.1, { kc.2 with
                 support_count := kc.2.support_count + c.length
                 last_reinforced := s.clock })
    | none => kc)
  let fresh := promoted.filter (fun c => !(s.semantic.map Prod.fst).contains (clusterKey c))
  let created := fresh.map (fun c =>
    (clusterKey c,
     ({ pattern := clusterKey c, support_count := c.length, last_reinforced := s.clock } : Concept)))
  { s with semantic := reinforced ++ created, clock := s.clock + 1 }

/-- Modelled from the spec: a `SafetyViolation` record of section 3
(the concrete record type is not under `src/`).  The category is the
matched disallowed term. -/
structure SafetyViolation where
  category : String
  severity : ℕ
  triggering_text : String
deriving DecidableEq, Repr

/-- Modelled from the spec: the safety policy configuration of sections
4.3 and 6 — disallowed terms with their severities, and the aggregate
severity threshold below which a response passes. -/
structure SafetyPolicy where
  disallowed : List (String × ℕ)
  threshold : ℕ
deriving DecidableEq, Repr

/-- Modelled from the spec: `evaluate` of section 4.3 (the
implementation behind the `SafetySystem.evaluate_response` stub in
`src/arc_core/safety.py` lines 30-32 is not under `src/`).  One
violation is reported for every configured disallowed term occurring in
the response; a pure function of policy and inputs. -/
def evaluate_response (pol : SafetyPolicy) (input response : String) :
    List SafetyViolation :=
  pol.disallowed.filterMap (fun ts =>
    if (tokenize response).contains ts.1 then
      some { category := ts.1, severity := ts.2, triggering_text := response }
    else none)

/-- The aggregate violation severity of a safety report. -/
def aggregateSeverity (vs : List SafetyViolation) : ℕ :=
  (vs.map (fun v => v.severity)).sum

/-- A candidate passes the gate when its aggregate violation severity is
below the configured threshold (section 4.3). -/
def passesGate (pol : SafetyPolicy) (input c : String) : Bool :=
  decide (aggregateSeverity (evaluate_response pol input c) < pol.threshold)

/-- Modelled from the spec: `apply_inhibition` of section 4.3 (the
implementation behind the `SafetySystem.apply_cognitive_inhibition` stub
in `src/arc_core/safety.py` lines 34-36 is not under `src/`).  Candidates
are evaluated in order; the first whose aggregate violation severity is
below the threshold is returned, `none` when every candidate fails. -/
def apply_cognitive_inhibition (pol : SafetyPolicy) (input : String)
    (candidates : List String) : Option String :=
  candidates.find? (passesGate pol input)

/-- Errors raised by the Adapter Update Engine (sections 4.1 and 7). -/
inductive LearnError where
  | invalidTrainingPair
deriving DecidableEq, Repr

/-- Modelled from the spec: the `UpdateResult` of the `learn` contract in
section 4.1. -/
structure UpdateResult where
  success : Bool
  loss : ℚ
deriving DecidableEq, Repr

/-- Modelled from the spec: the external Generative Model capability of
section 6.  `lossOf input target base adapter` is the predicted
continuation loss; `none` models a non-finite (diverged) numeric result.
`gradOf` is the gradient with respect to the adapter parameters only. -/
structure GenModel where
  lossOf : String → String → List ℚ → List ℚ → Option ℚ
  gradOf : String → String → List ℚ → List ℚ → List ℚ

/-- Modelled from the spec: `learn` of section 4.1 (the implementation
behind the `ARCTrainer` stub in `src/arc_core/train.py` is not under
`src/`).  Empty input or target fails with `InvalidTrainingPairError`
and mutates nothing.  Otherwise the loss is computed; a diverged
(non-finite) loss rolls back to the pre-step state and reports
`success := false`; a finite loss applies one optimizer step to the
adapter weights only, scaled by the learning rate modulated by the
biological learning rate, and increments `total_updates`, adds to
`cumulative_loss` and bumps `version`. -/
def learn (cfg : ARCConfigData) (M : GenModel) (input target : String)
    (s : CoreState) : Except LearnError UpdateResult × CoreState :=
  if input.isEmpty || target.isEmpty then
    (.error .invalidTrainingPair, s)
  else
    match M.lossOf input target s.base_weights s.adapter.weights with
    | none => (.ok { success := false, loss := 0 }, s)
    | some L =>
      let g := M.gradOf input target s.base_weights s.adapter.weights
      let step := s.adapter.learning_rate * cfg.biological_learning_rate
      (.ok { success := true, loss := L },
       { s with adapter :=
         { s.adapter with
             weights := List.zipWith (fun w gi => w - step * gi) s.adapter.weights g
             total_updates := s.adapter.total_updates + 1
             cumulative_loss := s.adapter.cumulative_loss + L
             version := s.adapter.version + 1 } })

/-- A whole sequence of `learn` calls, first pair first, discarding the
per-call results. -/
def learnAll (cfg : ARCConfigData) (M : GenModel) (pairs : List (String × String))
    (s : CoreState) : CoreState :=
  pairs.foldl (fun st p => (learn cfg M p.1 p.2 st).2) s

/-- One field of the persisted state layout of section 6. -/
inductive PersistField where
  | nat (n : ℕ)
  | rat (q : ℚ)
deriving DecidableEq, Repr

/-- Modelled from the spec: `save_model` serializing `AdapterState`
(the implementation behind the `ARCTrainer.save_model` stub in
`src/arc_core/train.py` lines 42-44 is not under `src/`): the weights
blob, length-prefixed, followed by the `learning_stats` record
(section 6). -/
def save_model (a : AdapterState) : List PersistField :=
  .nat a.weights.length :: a.weights.map .rat ++
    [.nat a.total_updates, .rat a.learning_rate, .rat a.cumulative_loss, .nat a.version]

/-- Reads `n` rational fields off the front of a blob. -/
def readRats : ℕ → List PersistField → Option (List ℚ × List PersistField)
  | 0, rest => some ([], rest)
  | n + 1, .rat q :: rest =>
    (readRats n rest).map (fun wr => (q :: wr.1, wr.2))
  | _ + 1, _ => none

/-- Modelled from the spec: `load_model`, the inverse of `save_model`
(section 6); a malformed blob yields `none` (`PersistenceError`). -/
def load_model (blob : List PersistField) : Option AdapterState :=
  match blob with
  | .nat len :: rest =>
    match readRats len rest with
    | some (ws, [.nat tu, .rat lr, .rat cl, .nat v]) =>
      some { weights := ws, total_updates := tu, learning_rate := lr,
             cumulative_loss := cl, version := v }
    | _ => none
  | _ => none

/-! ### Concrete instances used to exercise the model -/

/-- A concrete configuration: working-memory capacity 2 (the scenario of
section 8), unit learning rates, similarity threshold 2 shared tokens,
minimum cluster support 2, safety severity threshold 1. -/
def demoCfg : ARCConfigData :=
  { learning_rate := 1
    biological_learning_rate := 1
    working_memory_capacity := 2
    episodic_retention_cap := 1000
    consolidation_interval := 10
    similarity_threshold := 2
    min_cluster_size := 2
    safety_threshold := 1 }

/-- A concrete Generative Model capability: constant unit loss (always
finite), gradient 1 for every adapter parameter. -/
def demoModel : GenModel :=
  { lossOf := fun _ _ _ _ => some 1
    gradOf := fun _ _ _ w => w.map (fun _ => 1) }

/-- A Generative Model capability whose loss always diverges
(non-finite), exercising the rollback path of `learn`. -/
def divergingModel : GenModel :=
  { lossOf := fun _ _ _ _ => none
    gradOf := fun _ _ _ w => w }

/-- A concrete core state: two frozen base parameters, one adapter
weight, unit learning rate, no updates yet. -/
def demoCore : CoreState :=
  { base_weights := [1, 2]
    adapter :=
      { weights := [0], total_updates := 0, learning_rate := 1,
        cumulative_loss := 0, version := 0 } }

/-- The empty memory store. -/
def emptyMem : MemState :=
  { working := [], episodic := [], semantic := [], clock := 0 }

/-- Interaction A of the section 8 working-memory scenario. -/
def interA : Interaction := { input := "A", output := "a", timestamp := 0 }

/-- Interaction B of the section 8 working-memory scenario. -/
def interB : Interaction := { input := "B", output := "b", timestamp := 1 }

/-- Interaction C of the section 8 working-memory scenario. -/
def interC : Interaction := { input := "C", output := "c", timestamp := 2 }

/-- Five near-duplicate episodic entries: identical text, distinct
timestamps; every pairwise similarity is 1. -/
def dupEntries : List Interaction :=
  [{ input := "alpha beta", output := "gamma", timestamp := 0 },
   { input := "alpha beta", output := "gamma", timestamp := 1 },
   { input := "alpha beta", output := "gamma", timestamp := 2 },
   { input := "alpha beta", output := "gamma", timestamp := 3 },
   { input := "alpha beta", output := "gamma", timestamp := 4 }]

/-- A memory store holding the five near-duplicate entries in Episodic. -/
def dupState : MemState :=
  { working := [], episodic := dupEntries, semantic := [], clock := 0 }

/-- Five episodic entries with pairwise disjoint token sets: every
pairwise similarity is 0. -/
def farEntries : List Interaction :=
  [{ input := "t0", output := "u0", timestamp := 0 },
   { input := "t1", output := "u1", timestamp := 1 },
   { input := "t2", output := "u2", timestamp := 2 },
   { input := "t3", output := "u3", timestamp := 3 },
   { input := "t4", output := "u4", timestamp := 4 }]

/-- A memory store holding the five dissimilar entries in Episodic. -/
def farState : MemState :=
  { working := [], episodic := farEntries, semantic := [], clock := 0 }

/-- A concrete safety policy: the single disallowed term has severity 5,
above the aggregate threshold 1. -/
def demoPol : SafetyPolicy :=
  { disallowed := [("forbidden", 5)], threshold := 1 }

/-- A response containing the configured disallowed term. -/
def demoBadResponse : String := "this is forbidden text"

/-! ### Shared lemmas -/

/-- One `learn` call never touches the base parameters. -/
theorem learn_base_weights_eq (cfg : ARCConfigData) (M : GenModel) (i t : String)
    (s : CoreState) : ((learn cfg M i t s).2).base_weights = s.base_weights := by
  unfold learn
  split
  · rfl
  · split <;> rfl

/-- A whole sequence of `learn` calls never touches the base parameters. -/
theorem learnAll_base_weights_eq (cfg : ARCConfigData) (M : GenModel)
    (pairs : List (String × String)) (s : CoreState) :
    (learnAll cfg M pairs s).base_weights = s.base_weights := by
  induction pairs generalizing s with
  | nil => rfl
  | cons p ps ih =>
    show (learnAll cfg M ps ((learn cfg M p.1 p.2 s).2)).base_weights = s.base_weights
    rw [ih, learn_base_weights_eq]

/-- A successful `learn` call increments `total_updates` by exactly 1. -/
theorem learn_success_total (cfg : ARCConfigData) (M : GenModel) (i t : String)
    (s : CoreState) (r : UpdateResult) (h : (learn cfg M i t s).1 = .ok r)
    (hs : r.success = true) :
    ((learn cfg M i t s).2).adapter.total_updates = s.adapter.total_updates + 1 := by
  unfold learn at h ⊢
  by_cases hc : (i.isEmpty || t.isEmpty) = true
  · rw [if_pos hc] at h
    simp at h
  · rw [if_neg hc] at h ⊢
    cases hL : M.lossOf i t s.base_weights s.adapter.weights with
    | none =>
      rw [hL] at h
      simp at h
      rw [← h] at hs
      simp at hs
    | some L => simp

/-- A failed (`success = false`) `learn` call leaves `total_updates`
unchanged. -/
theorem learn_fail_total (cfg : ARCConfigData) (M : GenModel) (i t : String)
    (s : CoreState) (r : UpdateResult) (h : (learn cfg M i t s).1 = .ok r)
    (hs : r.success = false) :
    ((learn cfg M i t s).2).adapter.total_updates = s.adapter.total_updates := by
  unfold learn at h ⊢
  by_cases hc : (i.isEmpty || t.isEmpty) = true
  · rw [if_pos hc] at h
    simp at h
  · rw [if_neg hc] at h ⊢
    cases hL : M.lossOf i t s.base_weights s.adapter.weights with
    | none => rfl
    | some L =>
      rw [hL] at h
      simp at h
      rw [← h] at hs
      simp at hs

/-- A `learn` call that raises leaves the whole state unchanged. -/
theorem learn_error_state (cfg : ARCConfigData) (M : GenModel) (i t : String)
    (s : CoreState) (e : LearnError) (h : (learn cfg M i t s).1 = .error e) :
    (learn cfg M i t s).2 = s := by
  unfold learn at h ⊢
  by_cases hc : (i.isEmpty || t.isEmpty) = true
  · rw [if_pos hc]
  · rw [if_neg hc] at h ⊢
    cases hL : M.lossOf i t s.base_weights s.adapter.weights with
    | none =>
      rw [hL] at h
    | some L =>
      rw [hL] at h
      simp at h

/-- One `add_interaction` call always leaves Working Memory within the
configured capacity. -/
theorem add_interaction_working_le (cfg : ARCConfigData) (rec : Interaction)
    (s : MemState) :
    (add_interaction cfg rec s).working.length ≤ cfg.working_memory_capacity := by
  by_cases h : cfg.working_memory_capacity < (s.working ++ [rec]).length
  · simp only [add_interaction, if_pos h]
    simp only [List.length_drop]
    omega
  · simp only [add_interaction, if_neg h]
    simp only [not_lt] at h
    exact h

/-- One `add_interaction` call never drops a record: Episodic followed by
Working afterwards is exactly Episodic followed by Working with the new
record appended — evicted entries move FIFO to the Episodic front. -/
theorem add_interaction_no_drop (cfg : ARCConfigData) (rec : Interaction)
    (s : MemState) :
    (add_interaction cfg rec s).episodic ++ (add_interaction cfg rec s).working
      = s.episodic ++ (s.working ++ [rec]) := by
  by_cases h : cfg.working_memory_capacity < (s.working ++ [rec]).length
  · simp only [add_interaction, if_pos h]
    rw [List.append_assoc, List.take_append_drop]
  · simp only [add_interaction, if_neg h]

/-! ### The claims -/

/-- Claim C1: for every sequence of `learn` calls, the Generative
Model's base parameters are never mutated — the base-parameter checksum
observed before the sequence equals the checksum observed after it. -/
theorem base_parameters_frozen (cfg : ARCConfigData) (M : GenModel)
    (pairs : List (String × String)) (s : CoreState) :
    (learnAll cfg M pairs s).base_weights = s.base_weights ∧
    checksum (learnAll cfg M pairs s).base_weights = checksum s.base_weights := by
  refine ⟨learnAll_base_weights_eq cfg M pairs s, ?_⟩
  rw [learnAll_base_weights_eq]

/-- Claim C2: every public constructor and factory of the `arc_core`
package raises `ImportError` unconditionally, for every argument value,
so no instance of any core class is ever obtained through the public
API. -/
theorem public_api_always_raises :
    ARCConfig.init = .error (.importError arcImportMessage) ∧
    create_default_config = .error (.importError arcImportMessage) ∧
    (∀ (α : Type) (config : α),
      ARCTrainer.init config = .error (.importError arcImportMessage) ∧
      (ARCTrainer.init config).isOk = false) ∧
    (∀ (α : Type) (config : α),
      MemorySystem.init config = .error (.importError arcImportMessage) ∧
      (MemorySystem.init config).isOk = false) ∧
    (∀ (α : Type) (config : α),
      SafetySystem.init config = .error (.importError arcImportMessage) ∧
      (SafetySystem.init config).isOk = false) ∧
    ARCConfig.init.isOk = false ∧
    create_default_config.isOk = false :=
  ⟨rfl, rfl, fun _ _ => ⟨rfl, rfl⟩, fun _ _ => ⟨rfl, rfl⟩, fun _ _ => ⟨rfl, rfl⟩, rfl, rfl⟩

/-- Claim C3: each `learn` call increments `total_updates` by exactly 1
when it reports `success = true`, and by exactly 0 when it reports
`success = false` or raises. -/
theorem total_updates_per_learn_call (cfg : ARCConfigData) (M : GenModel)
    (i t : String) (s : CoreState) :
    (∀ r : UpdateResult, (learn cfg M i t s).1 = .ok r → r.success = true →
      ((learn cfg M i t s).2).adapter.total_updates = s.adapter.total_updates + 1) ∧
    (∀ r : UpdateResult, (learn cfg M i t s).1 = .ok r → r.success = false →
      ((learn cfg M i t s).2).adapter.total_updates = s.adapter.total_updates) ∧
    (∀ e : LearnError, (learn cfg M i t s).1 = .error e →
      ((learn cfg M i t s).2).adapter.total_updates = s.adapter.total_updates) :=
  ⟨fun r h hs => learn_success_total cfg M i t s r h hs,
   fun r h hs => learn_fail_total cfg M i t s r h hs,
   fun e h => by rw [learn_error_state cfg M i t s e h]⟩

/-- Witness for C3: a concrete successful call increments the counter by
1, a concrete diverged call and a concrete invalid call leave it at 0. -/
theorem total_updates_per_learn_call_witness :
    ((learn demoCfg demoModel "hi" "yo" demoCore).2).adapter.total_updates
        = demoCore.adapter.total_updates + 1 ∧
    ((learn demoCfg divergingModel "hi" "yo" demoCore).2).adapter.total_updates
        = demoCore.adapter.total_updates ∧
    ((learn demoCfg demoModel "" "yo" demoCore).2).adapter.total_updates
        = demoCore.adapter.total_updates :=
  ⟨(total_updates_per_learn_call demoCfg demoModel "hi" "yo" demoCore).1
      { success := true, loss := 1 } rfl rfl,
   (total_updates_per_learn_call demoCfg divergingModel "hi" "yo" demoCore).2.1
      { success := false, loss := 0 } rfl rfl,
   (total_updates_per_learn_call demoCfg demoModel "" "yo" demoCore).2.2
      .invalidTrainingPair rfl⟩

/-- Claim C4: over every sequence of `add_interaction` calls Working
Memory never exceeds the configured capacity; on overflow the oldest
entries are evicted FIFO into Episodic Memory, never dropped; with
capacity 2 and interactions A, B, C added in order, Working Memory holds
exactly B then C and A has been migrated to Episodic Memory. -/
theorem working_memory_bounded_fifo (cfg : ARCConfigData) :
    (∀ (recs : List Interaction) (s : MemState),
      s.working.length ≤ cfg.working_memory_capacity →
      (addAll cfg recs s).working.length ≤ cfg.working_memory_capacity) ∧
    (∀ (rec : Interaction) (s : MemState),
      (add_interaction cfg rec s).episodic ++ (add_interaction cfg rec s).working
        = s.episodic ++ (s.working ++ [rec])) ∧
    ((addAll demoCfg [interA, interB, interC] emptyMem).working = [interB, interC] ∧
      interA ∈ (addAll demoCfg [interA, interB, interC] emptyMem).episodic) := by
  refine ⟨?_, fun rec s => add_interaction_no_drop cfg rec s, by decide⟩
  intro recs
  induction recs with
  | nil => intro s h; exact h
  | cons r rs ih =>
    intro s _
    exact ih (add_interaction cfg r s) (add_interaction_working_le cfg r s)

/-- Witness for C4: the concrete three-insertion sequence at capacity 2
stays within bounds. -/
theorem working_memory_bounded_fifo_witness :
    (addAll demoCfg [interA, interB, interC] emptyMem).working.length
      ≤ demoCfg.working_memory_capacity :=
  (working_memory_bounded_fifo demoCfg).1 [interA, interB, interC] emptyMem
    (by decide)

/-- Claim C5: a `learn` call with empty input or empty target fails with
`InvalidTrainingPairError` and mutates nothing — the state, including
`total_updates` and the adapter weights, is returned unchanged. -/
theorem learn_invalid_pair (cfg : ARCConfigData) (M : GenModel) (i t : String)
    (s : CoreState) (h : i = "" ∨ t = "") :
    learn cfg M i t s = (.error .invalidTrainingPair, s) := by
  have hc : (i.isEmpty || t.isEmpty) = true := by
    rcases h with h | h <;> subst h <;> simp [String.isEmpty]
  unfold learn
  rw [if_pos hc]

/-- Witness for C5: the concrete empty-input call raises and leaves the
concrete state untouched. -/
theorem learn_invalid_pair_witness :
    learn demoCfg demoModel "" "yo" demoCore = (.error .invalidTrainingPair, demoCore) :=
  learn_invalid_pair demoCfg demoModel "" "yo" demoCore (Or.inl rfl)

/-- Claim C10: `learn` is not idempotent — when two identical calls both
report success, each call changes the state, and the state after two
calls differs from the state after one. -/
theorem learn_not_idempotent (cfg : ARCConfigData) (M : GenModel) (i t : String)
    (s : CoreState) (r₁ r₂ : UpdateResult)
    (h₁ : (learn cfg M i t s).1 = .ok r₁) (hs₁ : r₁.success = true)
    (h₂ : (learn cfg M i t ((learn cfg M i t s).2)).1 = .ok r₂)
    (hs₂ : r₂.success = true) :
    (learn cfg M i t s).2 ≠ s ∧
    (learn cfg M i t ((learn cfg M i t s).2)).2 ≠ (learn cfg M i t s).2 := by
  constructor
  · intro heq
    have h := learn_success_total cfg M i t s r₁ h₁ hs₁
    rw [heq] at h
    omega
  · intro heq
    have h := learn_success_total cfg M i t ((learn cfg M i t s).2) r₂ h₂ hs₂
    rw [heq] at h
    omega

/-- Witness for C10: with the concrete model and a valid pair, the first
call changes the state and the second call changes it again. -/
theorem learn_not_idempotent_witness :
    (learn demoCfg demoModel "go" "on" demoCore).2 ≠ demoCore ∧
    (learn demoCfg demoModel "go" "on" ((learn demoCfg demoModel "go" "on" demoCore).2)).2
      ≠ (learn demoCfg demoModel "go" "on" demoCore).2 :=
  learn_not_idempotent demoCfg demoModel "go" "on" demoCore
    { success := true, loss := 1 } { success := true, loss := 1 }
    rfl rfl rfl rfl

/-- `find?` returns the first element satisfying the predicate when
everything before it fails. -/
theorem find?_append_first {α : Type} (p : α → Bool) (l₁ l₂ : List α) (c : α)
    (h₁ : ∀ x ∈ l₁, p x = false) (hc : p c = true) :
    (l₁ ++ c :: l₂).find? p = some c := by
  induction l₁ with
  | nil =>
    simp only [List.nil_append]
    exact List.find?_cons_of_pos l₂ hc
  | cons a l ih =>
    have ha := h₁ a (by simp)
    rw [List.cons_append, List.find?_cons_of_neg _ (by simp [ha])]
    exact ih (fun x hx => h₁ x (by simp [hx]))

/-- Claim C6: `apply_inhibition` returns the first candidate whose
aggregate violation severity is below the threshold and `none` when all
candidates fail; for the concrete policy whose disallowed term has
severity above the threshold, `evaluate` reports at least one violation
on the offending response and inhibition over that single candidate
returns `none`. -/
theorem safety_inhibition_first_safe (pol : SafetyPolicy) (input : String) :
    (∀ (l₁ l₂ : List String) (c : String),
      (∀ x ∈ l₁, passesGate pol input x = false) → passesGate pol input c = true →
      apply_cognitive_inhibition pol input (l₁ ++ c :: l₂) = some c) ∧
    (∀ cs : List String, (∀ x ∈ cs, passesGate pol input x = false) →
      apply_cognitive_inhibition pol input cs = none) ∧
    (1 ≤ (evaluate_response demoPol "query" demoBadResponse).length ∧
      apply_cognitive_inhibition demoPol "query" [demoBadResponse] = none) := by
  refine ⟨fun l₁ l₂ c h₁ hc => find?_append_first _ l₁ l₂ c h₁ hc, ?_, by decide⟩
  intro cs h
  exact List.find?_eq_none.mpr (fun x hx => by simp [h x hx])

/-- Witness for C6: with the concrete policy the gate skips an unsafe
candidate in favour of the first safe one, and rejects a list holding
only the unsafe candidate. -/
theorem safety_inhibition_first_safe_witness :
    apply_cognitive_inhibition demoPol "query"
      ["this is forbidden text", "all clear here"] = some "all clear here" ∧
    apply_cognitive_inhibition demoPol "query" ["this is forbidden text"] = none :=
  ⟨(safety_inhibition_first_safe demoPol "query").1 ["this is forbidden text"] []
      "all clear here" (by decide) (by decide),
   (safety_inhibition_first_safe demoPol "query").2.1 ["this is forbidden text"]
      (by decide)⟩

/-- Claim C7: `get_relevant_memories` is deterministic — it does not
mutate the store, and a repeated call with the same query on the
resulting state returns the identical ordered sequence. -/
theorem retrieval_deterministic (q : String) (scope : MemScope) (s : MemState) :
    (get_relevant_memories q scope s).2 = s ∧
    (get_relevant_memories q scope (get_relevant_memories q scope s).2).1
      = (get_relevant_memories q scope s).1 ∧
    (get_relevant_memories q scope (get_relevant_memories q scope s).2).2 = s :=
  ⟨rfl, rfl, rfl⟩

/-- Reading back exactly the serialized weights recovers them and leaves
the trailing fields. -/
theorem readRats_map_append (ws : List ℚ) (rest : List PersistField) :
    readRats ws.length (ws.map .rat ++ rest) = some (ws, rest) := by
  induction ws with
  | nil => rfl
  | cons w ws ih => simp [readRats, ih]

/-- Claim C8: round-trip persistence — loading a saved `AdapterState`
reproduces it, in particular with identical `total_updates` and an
identical weight checksum. -/
theorem adapter_state_roundtrip (a : AdapterState) :
    load_model (save_model a) = some a ∧
    (load_model (save_model a)).map (fun b => b.total_updates)
      = some a.total_updates ∧
    (load_model (save_model a)).map (fun b => checksum b.weights)
      = some (checksum a.weights) := by
  have h : load_model (save_model a) = some a := by
    simp [save_model, load_model, readRats_map_append]
  exact ⟨h, by rw [h]; rfl, by rw [h]; rfl⟩

/-- Clustering the empty batch yields no clusters, whatever the fuel. -/
theorem clusterByAux_nil (θ fuel : ℕ) : clusterByAux θ fuel [] = [] := by
  cases fuel <;> rfl

/-- A batch whose entries are pairwise similar above the threshold forms
one single cluster. -/
theorem clusterBy_pairwise_near (θ : ℕ) (l : List Interaction) (hne : l ≠ [])
    (h : l.Pairwise (fun a b => θ ≤ similarity a b)) : clusterBy θ l = [l] := by
  cases l with
  | nil => exact absurd rfl hne
  | cons e rest =>
    rcases List.pairwise_cons.mp h with ⟨h1, _⟩
    show clusterByAux θ (e :: rest).length (e :: rest) = [e :: rest]
    rw [List.length_cons]
    simp only [clusterByAux]
    have hnear : rest.filter (fun x => decide (θ ≤ similarity e x)) = rest :=
      List.filter_eq_self.mpr (fun x hx => decide_eq_true (h1 x hx))
    have hfar : rest.filter (fun x => !decide (θ ≤ similarity e x)) = [] := by
      refine List.filter_eq_nil_iff.mpr (fun x hx => ?_)
      simp [h1 x hx]
    rw [hnear, hfar, clusterByAux_nil]

/-- With enough fuel, a batch whose entries are pairwise dissimilar
splits into singleton clusters. -/
theorem clusterByAux_pairwise_far (θ fuel : ℕ) :
    ∀ l : List Interaction, l.length ≤ fuel →
    l.Pairwise (fun a b => ¬(θ ≤ similarity a b)) →
    clusterByAux θ fuel l = l.map (fun e => [e]) := by
  induction fuel with
  | zero =>
    intro l hl _
    rw [List.length_eq_zero.mp (Nat.le_zero.mp hl)]
    rfl
  | succ n ih =>
    intro l hl hp
    cases l with
    | nil => exact clusterByAux_nil θ (n + 1)
    | cons e rest =>
      rcases List.pairwise_cons.mp hp with ⟨h1, h2⟩
      simp only [clusterByAux]
      have hnear : rest.filter (fun x => decide (θ ≤ similarity e x)) = [] := by
        refine List.filter_eq_nil_iff.mpr (fun x hx => ?_)
        simp [h1 x hx]
      have hfar : rest.filter (fun x => !decide (θ ≤ similarity e x)) = rest := by
        refine List.filter_eq_self.mpr (fun x hx => ?_)
        simp [h1 x hx]
      rw [hnear, hfar, ih rest (by simp at hl; omega) h2]
      simp

/-- A batch whose entries are pairwise dissimilar splits into singleton
clusters. -/
theorem clusterBy_pairwise_far (θ : ℕ) (l : List Interaction)
    (h : l.Pairwise (fun a b => ¬(θ ≤ similarity a b))) :
    clusterBy θ l = l.map (fun e => [e]) :=
  clusterByAux_pairwise_far θ l.length l le_rfl h

/-- Claim C9: consolidation never deletes Episodic entries; five
pairwise-similar episodic entries (similarity meeting the threshold, no
prior concepts) produce exactly one Semantic Concept with
`support_count = 5`; five pairwise-dissimilar entries produce no concept
and all entries remain in Episodic Memory. -/
theorem consolidation_postcondition (cfg : ARCConfigData) :
    (∀ s : MemState, (consolidate_memories cfg s).episodic = s.episodic) ∧
    (∀ s : MemState,
      s.semantic = [] → s.episodic.length = 5 →
      s.episodic.Pairwise (fun a b => cfg.similarity_threshold ≤ similarity a b) →
      cfg.min_cluster_size ≤ 5 →
      (consolidate_memories cfg s).semantic =
        [(clusterKey s.episodic,
          { pattern := clusterKey s.episodic, support_count := 5,
            last_reinforced := s.clock })]) ∧
    (∀ s : MemState,
      s.episodic.Pairwise (fun a b => ¬(cfg.similarity_threshold ≤ similarity a b)) →
      2 ≤ cfg.min_cluster_size →
      (consolidate_memories cfg s).semantic = s.semantic ∧
      (consolidate_memories cfg s).episodic = s.episodic) := by
  refine ⟨fun s => rfl, ?_, ?_⟩
  · intro s hsem hlen hpw hmin
    have hne : s.episodic ≠ [] := by
      intro h
      rw [h] at hlen
      simp at hlen
    have hcl := clusterBy_pairwise_near cfg.similarity_threshold s.episodic hne hpw
    have hd : decide (cfg.min_cluster_size ≤ (5 : ℕ)) = true := decide_eq_true hmin
    simp only [consolidate_memories, hcl, hsem]
    simp [List.filter, hd, hlen]
  · intro s hpw hmin
    refine ⟨?_, rfl⟩
    have hcl := clusterBy_pairwise_far cfg.similarity_threshold s.episodic hpw
    have hprom :
        ((s.episodic.map (fun e => [e])).filter
          (fun c => decide (cfg.min_cluster_size ≤ c.length))) = [] := by
      refine List.filter_eq_nil_iff.mpr (fun c hc => ?_)
      rcases List.mem_map.mp hc with ⟨e, _, rfl⟩
      simp
      omega
    simp only [consolidate_memories, hcl, hprom]
    simp

/-- Witness for C9: the five concrete near-duplicate entries produce one
concept with support 5, and the five concrete dissimilar entries leave
Semantic Memory untouched. -/
theorem consolidation_postcondition_witness :
    (consolidate_memories demoCfg dupState).semantic =
      [(clusterKey dupState.episodic,
        { pattern := clusterKey dupState.episodic, support_count := 5,
          last_reinforced := dupState.clock })] ∧
    (consolidate_memories demoCfg farState).semantic = farState.semantic :=
  ⟨(consolidation_postcondition demoCfg).2.1 dupState rfl (by decide) (by decide)
      (by decide),
   ((consolidation_postcondition demoCfg).2.2 farState (by decide) (by decide)).1⟩

end ARC
